import Mathlib

/-!
Shallow embedding of the Keysight 81160A driver
(`src/pymeasure/instruments/keysight/keysight81160A.py`).

Python floats are modelled as exact rationals; the fragment of numpy
float semantics that the driver exercises with a zero divisor (division
by zero yielding non-finite values rather than raising) is modelled by
the `NPVal` type.  Each command transmitted to the instrument transport
is modelled as a constructor of `Cmd`; an operation that raises before
writing is modelled as `Except.error`, which carries no command list.
-/

set_option maxRecDepth 4000

deriving instance DecidableEq for Except

namespace Keysight81160A

/-- Source constant `MAX_VOLTAGE = 5.0` (line 52). -/
def MAX_VOLTAGE : ℚ := 5

/-- Source constant `SIN_AMPL_BORDER = 3.0` (line 53). -/
def SIN_AMPL_BORDER : ℚ := 3

/-- Source constant `MAX_DAC_VALUE = 8191` (line 54). -/
def MAX_DAC_VALUE : ℤ := 8191

/-- Source constant `FREQUENCY_SIN_RANGE = [1e-6, 500e6]` (line 33). -/
def FREQUENCY_SIN_RANGE : ℚ × ℚ := (1 / 1000000, 500000000)

/-- Source constant `FREQUENCY_RANGE = [1e-6, 330e6]` (line 34). -/
def FREQUENCY_RANGE : ℚ × ℚ := (1 / 1000000, 330000000)

/-- Source constant `TRIGGER_COUNT = [1, 2.147483647e9]` (line 46). -/
def TRIGGER_COUNT : ℚ × ℚ := (1, 2147483647)

/-- Python `int(x)` applied to a real value: truncation toward zero. -/
def pyTrunc (q : ℚ) : ℤ := if 0 ≤ q then ⌊q⌋ else ⌈q⌉

/-- Python `round(x)` (and `np.round`) with one argument: round half to even. -/
def roundHalfEven (q : ℚ) : ℤ :=
  if q - ⌊q⌋ < 1 / 2 then ⌊q⌋
  else if 1 / 2 < q - ⌊q⌋ then ⌊q⌋ + 1
  else if ⌊q⌋ % 2 = 0 then ⌊q⌋ else ⌊q⌋ + 1

/-- A command written to the instrument transport, one constructor per
distinct command template that the modelled operations emit. -/
inductive Cmd where
  | applyDC (ch : ℕ) (voltage : ℚ)
  | applyNoise (ch : ℕ) (amplitude offset : ℚ)
  | applyPulse (ch : ℕ) (frequency amplitude offset : ℚ)
  | applySin (ch : ℕ) (frequency amplitude offset : ℚ)
  | applySquare (ch : ℕ) (frequency amplitude offset : ℚ)
  | applyUser (ch : ℕ) (frequency amplitude offset : ℚ)
  | triggerCount (ch : ℕ) (count : ℤ)
  | burstState (ch : ℕ) (state : Bool)
  | deviceFrequency (value : ℚ)
  | channelFrequency (ch : ℕ) (value : ℚ)
  deriving DecidableEq

/-- The message of the `ValueError` raised by `_check_voltages`
(line 284, with `MAX_VOLTAGE = 5.0` formatted by the f-string). -/
def volt_error_message : String :=
  "Amplitude + offset exceed maximal voltage of 5.0 V."

/-- The message of the `ValueError` raised by `_check_sin_params`
(lines 288-291, with `FREQUENCY_RANGE[-1] = 330000000.0` and
`SIN_AMPL_BORDER = 3.0` formatted by the f-strings). -/
def sin_error_message : String :=
  "Frequency of higher than 330000000.0 Hz is only supported for sin with amplitude below 3.0 V."

/-- Source `_check_voltages` (lines 282-284): raise if
`abs(amplitude) + abs(offset) > MAX_VOLTAGE`. -/
def _check_voltages (amplitude offset : ℚ) : Except String Unit :=
  if |amplitude| + |offset| > MAX_VOLTAGE then Except.error volt_error_message
  else Except.ok ()

/-- Source `_check_sin_params` (lines 286-291): raise if
`frequency > FREQUENCY_RANGE[-1] and amplitude > SIN_AMPL_BORDER`. -/
def _check_sin_params (frequency amplitude : ℚ) : Except String Unit :=
  if frequency > FREQUENCY_RANGE.2 ∧ amplitude > SIN_AMPL_BORDER then
    Except.error sin_error_message
  else Except.ok ()

/-- Source `apply_dc` (lines 258-259): a single write, no check. -/
def apply_dc (ch : ℕ) (voltage : ℚ) : Except String (List Cmd) :=
  Except.ok [Cmd.applyDC ch voltage]

/-- Source `apply_noise` (lines 261-263). -/
def apply_noise (ch : ℕ) (amplitude offset : ℚ) : Except String (List Cmd) := do
  _check_voltages amplitude offset
  pure [Cmd.applyNoise ch amplitude offset]

/-- Source `apply_pulse` (lines 265-267). -/
def apply_pulse (ch : ℕ) (frequency amplitude offset : ℚ) : Except String (List Cmd) := do
  _check_voltages amplitude offset
  pure [Cmd.applyPulse ch frequency amplitude offset]

/-- Source `apply_sin` (lines 269-272). -/
def apply_sin (ch : ℕ) (frequency amplitude offset : ℚ) : Except String (List Cmd) := do
  _check_voltages amplitude offset
  _check_sin_params frequency amplitude
  pure [Cmd.applySin ch frequency amplitude offset]

/-- Source `apply_square` (lines 274-276). -/
def apply_square (ch : ℕ) (frequency amplitude offset : ℚ) : Except String (List Cmd) := do
  _check_voltages amplitude offset
  pure [Cmd.applySquare ch frequency amplitude offset]

/-- Source `apply_user_waveform` (lines 278-280). -/
def apply_user_waveform (ch : ℕ) (frequency amplitude offset : ℚ) :
    Except String (List Cmd) := do
  _check_voltages amplitude offset
  pure [Cmd.applyUser ch frequency amplitude offset]

/-- Modelled from the spec: the generic validator `strict_range` of
`pymeasure.instruments.validators` is imported by the driver but its
code is not under `src/`.  The spec states that range-typed settings
fail if the value is outside `[min, max]` (inclusive), raising a domain
error that prevents transmission. -/
def strict_range (value : ℚ) (rng : ℚ × ℚ) : Except String ℚ :=
  if rng.1 ≤ value ∧ value ≤ rng.2 then Except.ok value
  else Except.error "ValueError: value not in declared range"

/-- The device-level `frequency_values` of class `Keysight81160A`
(line 299): `FREQUENCY_SIN_RANGE`. -/
def device_frequency_values : ℚ × ℚ := FREQUENCY_SIN_RANGE

/-- The channel-level `frequency_values` of `Keysight81160AChannel`
(line 62): `FREQUENCY_SIN_RANGE`. -/
def channel_frequency_values : ℚ × ℚ := FREQUENCY_SIN_RANGE

/-- Setting the device-level `frequency` property: validate with
`strict_range` against `device_frequency_values`, then write. -/
def device_frequency_set (value : ℚ) : Except String (List Cmd) := do
  let v ← strict_range value device_frequency_values
  pure [Cmd.deviceFrequency v]

/-- Setting a channel `frequency` property: validate with `strict_range`
against `channel_frequency_values`, then write. -/
def channel_frequency_set (ch : ℕ) (value : ℚ) : Except String (List Cmd) := do
  let v ← strict_range value channel_frequency_values
  pure [Cmd.channelFrequency ch v]

/-- Setting the `trigger_count` property (lines 191-201): validate with
`strict_range` against `TRIGGER_COUNT`, then issue the single command
`:TRIG{ch}:COUN %d` (the `%d` format truncates toward zero). -/
def trigger_count_set (ch : ℕ) (value : ℚ) : Except String (List Cmd) := do
  let v ← strict_range value TRIGGER_COUNT
  pure [Cmd.triggerCount ch (pyTrunc v)]

/-- Whether a Bool-valued test finds a burst-state write in a command list. -/
def has_burst_write : List Cmd → Bool
  | [] => false
  | Cmd.burstState _ _ :: _ => true
  | _ :: rest => has_burst_write rest

/-- Whether a setting write succeeded (reached the transport). -/
def isOkB {α : Type} : Except String α → Bool
  | Except.ok _ => true
  | Except.error _ => false

/-- The `.max()` of a numpy float array, on the list model (the driver
only calls it on nonempty arrays). -/
def listMax (xs : List ℚ) : ℚ := xs.foldl max (xs.headD 0)

/-- A numpy float64 value: finite rational, NaN, or a signed infinity. -/
inductive NPVal where
  | num (q : ℚ)
  | nan
  | pinf
  | ninf
  deriving DecidableEq

/-- Numpy float64 division: a zero divisor does not raise but produces
NaN (for a zero dividend) or a signed infinity (it only emits a
RuntimeWarning). -/
def npDiv (a b : ℚ) : NPVal :=
  if b = 0 then (if a = 0 then NPVal.nan else if 0 < a then NPVal.pinf else NPVal.ninf)
  else NPVal.num (a / b)

/-- One sample of `_preprocess_waveform` (lines 203-213): divide by the
array maximum, multiply by `MAX_DAC_VALUE`, `np.round`, cast with
`astype(int)`.  Casting a non-finite float to int is undefined
behaviour (numpy emits an invalid-value warning and yields a
platform-dependent integer), modelled as `none`. -/
def encode_sample (x m : ℚ) : Option ℤ :=
  match npDiv x m with
  | NPVal.num q => some (roundHalfEven (q * (MAX_DAC_VALUE : ℚ)))
  | _ => none

/-- Source `_preprocess_waveform` (lines 203-213):
`data_normed = data / data.max()`;
`data_int = np.round(data_normed * MAX_DAC_VALUE).astype(int)`. -/
def _preprocess_waveform (data : List ℚ) : List (Option ℤ) :=
  data.map (fun x => encode_sample x (listMax data))

/-- Source `waveform_volatile` setter (lines 224-238): store the array,
preprocess it and transmit the binary block.  The body contains no
validation and no raise; it always completes, so the model is total
and always returns `Except.ok` with the transmitted encoding. -/
def waveform_volatile_set (waveform : List ℚ) : Except String (List (Option ℤ)) :=
  Except.ok (_preprocess_waveform waveform)

/-- Numpy `np.linspace(a, b, n)` on exact rationals: `n` evenly spaced
points from `a` to `b` inclusive (`[a]` when `n = 1`, `[]` when `n = 0`). -/
def linspace (a b : ℚ) (n : ℕ) : List ℚ :=
  if n = 0 then []
  else if n = 1 then [a]
  else (List.range n).map (fun (i : ℕ) => a + (i : ℚ) * (b - a) / ((n : ℚ) - 1))

/-- The `max_dac` of `generate_pulse_sequence` (lines 323-325):
`2**13 - 1`, negated when `pulse_voltage < 0 and dc_voltage <= 0`. -/
def pulseMaxDac (pulse_voltage dc_voltage : ℚ) : ℤ :=
  if pulse_voltage < 0 ∧ dc_voltage ≤ 0 then -(2 ^ 13 - 1) else 2 ^ 13 - 1

/-- The `dc_dac` of `generate_pulse_sequence` (line 327):
`int(dc_voltage / pulse_voltage * max_dac)`. -/
def pulseDcDac (pulse_voltage dc_voltage : ℚ) : ℤ :=
  pyTrunc (dc_voltage / pulse_voltage * (pulseMaxDac pulse_voltage dc_voltage : ℚ))

/-- The `rise_num` of `generate_pulse_sequence` (line 330): `100 // 30`. -/
def pulseRiseNum : ℕ := 100 / 30

/-- The `hold_num` of `generate_pulse_sequence` (line 331):
`(500 // 3) * 100 // 84`. -/
def pulseHoldNum : ℕ := 500 / 3 * 100 / 84

/-- The `fall_num` of `generate_pulse_sequence` (lines 332-334):
`int(rise_num / pulse_voltage * (pulse_voltage - dc_voltage))`. -/
def pulseFallNum (pulse_voltage dc_voltage : ℚ) : ℤ :=
  pyTrunc ((pulseRiseNum : ℚ) / pulse_voltage * (pulse_voltage - dc_voltage))

/-- The `pulse_fall_end` index (line 345): `100 + rise_num + hold_num + fall_num`. -/
def pulseFallEnd (pulse_voltage dc_voltage : ℚ) : ℤ :=
  100 + pulseRiseNum + pulseHoldNum + pulseFallNum pulse_voltage dc_voltage

/-- Source `generate_pulse_sequence` (lines 322-361).  A zero
`pulse_voltage` raises ZeroDivisionError at line 327; a negative
`fall_num` makes `np.linspace` raise, and a fall segment overrunning the
20000-point array makes the slice assignment at line 349 raise a
broadcast ValueError; both are modelled as errors.  Otherwise the array
built by the slice assignments is 100 zeros, the rise ramp, the hold
plateau, the fall ramp and a `dc_dac` tail, with the last point forced
to 0 when `return_to_zero` is set. -/
def generate_pulse_sequence (pulse_voltage dc_voltage : ℚ) (return_to_zero : Bool) :
    Except String (List ℚ) :=
  if pulse_voltage = 0 then Except.error "ZeroDivisionError: float division by zero"
  else
    let maxDac : ℚ := (pulseMaxDac pulse_voltage dc_voltage : ℚ)
    let dcDac : ℚ := (pulseDcDac pulse_voltage dc_voltage : ℚ)
    if pulseFallNum pulse_voltage dc_voltage < 0 ∨
        20000 < pulseFallEnd pulse_voltage dc_voltage then
      Except.error "ValueError: could not broadcast input array"
    else
      let fallN : ℕ := (pulseFallNum pulse_voltage dc_voltage).toNat
      let points : List ℚ :=
        List.replicate 100 0
          ++ linspace 0 maxDac pulseRiseNum
          ++ List.replicate pulseHoldNum maxDac
          ++ linspace maxDac dcDac fallN
          ++ List.replicate (20000 - (100 + pulseRiseNum + pulseHoldNum + fallN)) dcDac
      Except.ok (if return_to_zero then points.dropLast ++ [0] else points)

/-- The element at index `i` of a generated waveform, `none` on error. -/
def resGet (r : Except String (List ℚ)) (i : ℕ) : Option ℚ :=
  match r with
  | Except.ok l => l[i]?
  | Except.error _ => none

/-- The length of a generated waveform, `none` on error. -/
def resLength (r : Except String (List ℚ)) : Option ℕ :=
  match r with
  | Except.ok l => some l.length
  | Except.error _ => none

/-- The first `n` elements of a generated waveform, `none` on error. -/
def resTake (r : Except String (List ℚ)) (n : ℕ) : Option (List ℚ) :=
  match r with
  | Except.ok l => some (l.take n)
  | Except.error _ => none

/-- The `n`-element slice starting at index `a`, `none` on error. -/
def resSlice (r : Except String (List ℚ)) (a n : ℕ) : Option (List ℚ) :=
  match r with
  | Except.ok l => some ((l.drop a).take n)
  | Except.error _ => none

/-- Whether a sample list is monotonically non-decreasing. -/
def isMonotone : List ℚ → Bool
  | [] => true
  | [_] => true
  | x :: y :: rest => decide (x ≤ y) && isMonotone (y :: rest)

/-- Source `array_to_string` (lines 364-365):
a comma-join of `str(round(x))` over the array. -/
def array_to_string (array : List ℚ) : String :=
  String.intercalate "," (array.map (fun x => toString (roundHalfEven x)))

/-! Theorems -/

/-- C2: for every amplitude/offset pair with the absolute sum over the
5 V budget, each of the five checked apply operations raises the
`ValueError` naming the 5 V ceiling; the error is raised by
`_check_voltages` before any write, so no command reaches the
transport (`Except.error` carries no command list). -/
theorem apply_ops_reject_excess_voltage (ch : ℕ) (f a o : ℚ)
    (h : |a| + |o| > MAX_VOLTAGE) :
    apply_noise ch a o = Except.error volt_error_message ∧
    apply_pulse ch f a o = Except.error volt_error_message ∧
    apply_sin ch f a o = Except.error volt_error_message ∧
    apply_square ch f a o = Except.error volt_error_message ∧
    apply_user_waveform ch f a o = Except.error volt_error_message := by
  refine ⟨?_, ?_, ?_, ?_, ?_⟩ <;>
    simp [apply_noise, apply_pulse, apply_sin, apply_square,
      apply_user_waveform, _check_voltages, h, Bind.bind, Except.bind,
      Functor.map, Except.map]

/-- C2 witness: amplitude 3 and offset 3 exceed the budget and every
checked apply operation rejects them. -/
theorem apply_ops_reject_excess_voltage_witness :
    apply_noise 1 3 3 = Except.error volt_error_message ∧
    apply_pulse 1 1000 3 3 = Except.error volt_error_message ∧
    apply_sin 1 1000 3 3 = Except.error volt_error_message ∧
    apply_square 1 1000 3 3 = Except.error volt_error_message ∧
    apply_user_waveform 1 1000 3 3 = Except.error volt_error_message :=
  apply_ops_reject_excess_voltage 1 1000 3 3 (by norm_num [MAX_VOLTAGE])

/-- C4: once the voltage budget passes, `apply_sin` rejects every call
with frequency over 330 MHz and amplitude over 3 V with the error
naming both thresholds; and at exactly 3 V with frequency 331 MHz the
command is issued. -/
theorem apply_sin_high_freq_amplitude_guard (ch : ℕ) (f a o : ℚ)
    (hv : |a| + |o| ≤ MAX_VOLTAGE) (hf : f > FREQUENCY_RANGE.2)
    (ha : a > SIN_AMPL_BORDER) :
    apply_sin ch f a o = Except.error sin_error_message ∧
    apply_sin ch 331000000 3 0 = Except.ok [Cmd.applySin ch 331000000 3 0] := by
  constructor
  · simp [apply_sin, _check_voltages, _check_sin_params, not_lt.mpr hv, hf, ha,
      Bind.bind, Except.bind]
  · simp only [apply_sin, _check_voltages, _check_sin_params, Bind.bind, Except.bind]
    norm_num [MAX_VOLTAGE, FREQUENCY_RANGE, SIN_AMPL_BORDER, pure, Except.pure]

/-- C4 witness: at frequency 331 MHz, amplitude 3.1 V (offset 0) is
rejected with the threshold error while amplitude 3.0 V is issued. -/
theorem apply_sin_high_freq_amplitude_guard_witness :
    apply_sin 1 331000000 (31 / 10) 0 = Except.error sin_error_message ∧
    apply_sin 1 331000000 3 0 = Except.ok [Cmd.applySin 1 331000000 3 0] :=
  apply_sin_high_freq_amplitude_guard 1 331000000 (31 / 10) 0
    (by rw [abs_of_nonneg (by norm_num : (0:ℚ) ≤ 31 / 10), abs_zero]
        norm_num [MAX_VOLTAGE])
    (by norm_num [FREQUENCY_RANGE]) (by norm_num [SIN_AMPL_BORDER])

/-- C10: `apply_dc` performs no voltage-budget check: every voltage,
also one whose magnitude exceeds 5 V, produces exactly the DC apply
write; for contrast, 6 V with offset 0 would fail `_check_voltages`. -/
theorem apply_dc_never_validates (ch : ℕ) (v : ℚ) :
    apply_dc ch v = Except.ok [Cmd.applyDC ch v] ∧
    apply_dc ch 6 = Except.ok [Cmd.applyDC ch 6] ∧
    _check_voltages 6 0 = Except.error volt_error_message := by
  refine ⟨rfl, rfl, ?_⟩
  simp [_check_voltages]
  norm_num [MAX_VOLTAGE]

/-- C6 counterexample: 400 MHz lies outside the claimed device-level
range `[1e-6, 330e6]` (it exceeds `FREQUENCY_RANGE[-1]`), yet the
device-level frequency write succeeds, because line 299 binds the
device-level `frequency_values` to `FREQUENCY_SIN_RANGE = [1e-6, 500e6]`. -/
theorem device_frequency_accepts_400MHz :
    device_frequency_set 400000000 = Except.ok [Cmd.deviceFrequency 400000000] ∧
    FREQUENCY_RANGE.2 < (400000000 : ℚ) := by
  constructor
  · simp only [device_frequency_set, device_frequency_values, strict_range,
      FREQUENCY_SIN_RANGE, Bind.bind, Except.bind]
    norm_num [pure, Except.pure]
  · norm_num [FREQUENCY_RANGE]

/-- C6 amended: both the device-level and the channel frequency writes
fail exactly when the value is outside `[1e-6, 500e6]` — both bind
`frequency_values` to `FREQUENCY_SIN_RANGE` (lines 62 and 299); the
330 MHz bound plays no role in either. -/
theorem frequency_ranges_device_and_channel (ch : ℕ) (v : ℚ) :
    (isOkB (device_frequency_set v) = false ↔ (v < 1 / 1000000 ∨ 500000000 < v)) ∧
    (isOkB (channel_frequency_set ch v) = false ↔ (v < 1 / 1000000 ∨ 500000000 < v)) := by
  constructor <;>
  · simp only [device_frequency_set, channel_frequency_set, device_frequency_values,
      channel_frequency_values, strict_range, FREQUENCY_SIN_RANGE, Bind.bind, Except.bind]
    by_cases hc : (1 : ℚ) / 1000000 ≤ v ∧ v ≤ 500000000
    · rw [if_pos hc]
      simp only [pure, Except.pure, isOkB]
      simp only [Bool.true_eq_false, false_iff, not_or, not_lt]
      exact ⟨hc.1, hc.2⟩
    · rw [if_neg hc]
      simp only [isOkB, true_iff]
      rcases not_and_or.mp hc with h1 | h2
      · exact Or.inl (not_le.mp h1)
      · exact Or.inr (not_le.mp h2)

/-- C9 counterexample: setting `trigger_count` to 0 fails `strict_range`
validation against `TRIGGER_COUNT = [1, 2147483647]`, so no command at
all is issued, contradicting one command for every value. -/
theorem trigger_count_zero_rejected :
    trigger_count_set 1 0 = Except.error "ValueError: value not in declared range" := by
  simp only [trigger_count_set, strict_range, TRIGGER_COUNT, Bind.bind, Except.bind]
  norm_num

/-- C9 amended: for every value inside the declared range
`[1, 2147483647]`, setting `trigger_count` issues exactly the one
trigger-count write and no burst-state write; the burst state is left
untouched even for values greater than 1. -/
theorem trigger_count_single_write (ch : ℕ) (v : ℚ)
    (h1 : 1 ≤ v) (h2 : v ≤ 2147483647) :
    trigger_count_set ch v = Except.ok [Cmd.triggerCount ch (pyTrunc v)] ∧
    has_burst_write [Cmd.triggerCount ch (pyTrunc v)] = false := by
  constructor
  · simp only [trigger_count_set, strict_range, TRIGGER_COUNT, Bind.bind, Except.bind]
    rw [if_pos ⟨h1, h2⟩]
    rfl
  · rfl

/-- C9 witness: value 5 (greater than 1) produces exactly the one
trigger-count command and no burst-state write. -/
theorem trigger_count_single_write_witness :
    trigger_count_set 1 5 = Except.ok [Cmd.triggerCount 1 (pyTrunc 5)] ∧
    has_burst_write [Cmd.triggerCount 1 (pyTrunc 5)] = false :=
  trigger_count_single_write 1 5 (by norm_num) (by norm_num)

/-- C1: evaluation at the failing input `[-2, 1]`.  The encoder divides
by the signed array maximum (here 1), not by the peak magnitude (2), so
the first sample encodes to -16382, strictly below the DAC floor
-8191 = `-MAX_DAC_VALUE`, against the invariant claimed by the spec and
by the docstring of `_preprocess_waveform` itself. -/
theorem preprocess_waveform_escapes_range :
    _preprocess_waveform [-2, 1] = [some (-16382), some 8191] ∧
    (-16382 : ℤ) < -MAX_DAC_VALUE := by
  constructor
  · simp only [_preprocess_waveform, listMax, encode_sample, npDiv, List.map,
      List.foldl, List.headD]
    norm_num [max_def, roundHalfEven, MAX_DAC_VALUE]
  · norm_num [MAX_DAC_VALUE]

/-- C3: evaluation at the failing input `[0, 0]`, whose maximum is 0.
The volatile-waveform setter raises nothing: numpy division by a zero
maximum yields NaN (0/0) under a mere warning, and the NaN samples
reach the integer cast (undefined, modelled `none`); the upload
completes instead of failing with the domain error the spec requires. -/
theorem waveform_volatile_zero_max_no_error :
    waveform_volatile_set [0, 0] = Except.ok [none, none] ∧ listMax [0, 0] = 0 := by
  constructor
  · simp [waveform_volatile_set, _preprocess_waveform, encode_sample, npDiv, listMax]
  · simp [listMax]

/-- C5 counterexample: the formatter renders `[1.4, 2.6, -3.5]` as
something other than the claimed string because Python rounds -3.5 half
to even, to -4, not to -3. -/
theorem array_to_string_not_claimed_value :
    array_to_string [7 / 5, 13 / 5, -7 / 2] ≠ "1,3,-3" := by
  have h1 : roundHalfEven (7 / 5) = 1 := by norm_num [roundHalfEven]
  have h2 : roundHalfEven (13 / 5) = 3 := by norm_num [roundHalfEven]
  have h3 : roundHalfEven (-7 / 2 : ℚ) = -4 := by norm_num [roundHalfEven]
  simp only [array_to_string, List.map, h1, h2, h3]
  decide

/-- C5 amended: the formatter renders `[1.4, 2.6, -3.5]` as "1,3,-4",
each element rounded half to even before the comma-join. -/
theorem array_to_string_rounds_half_to_even :
    array_to_string [7 / 5, 13 / 5, -7 / 2] = "1,3,-4" := by
  have h1 : roundHalfEven (7 / 5) = 1 := by norm_num [roundHalfEven]
  have h2 : roundHalfEven (13 / 5) = 3 := by norm_num [roundHalfEven]
  have h3 : roundHalfEven (-7 / 2 : ℚ) = -4 := by norm_num [roundHalfEven]
  simp only [array_to_string, List.map, h1, h2, h3]
  decide

/-! Helper lemmas for the pulse-sequence synthesizer -/

/-- The integer-division constant `rise_num = 100 // 30` is 3. -/
theorem riseNum_eq : pulseRiseNum = 3 := by norm_num [pulseRiseNum]

/-- The integer-division constant `hold_num = (500 // 3) * 100 // 84` is 197. -/
theorem holdNum_eq : pulseHoldNum = 197 := by norm_num [pulseHoldNum]

/-- A linspace of `n` points has length `n`. -/
theorem linspace_length (a b : ℚ) (n : ℕ) : (linspace a b n).length = n := by
  rw [linspace]
  split_ifs with h1 h2
  · rw [h1]; rfl
  · rw [h2]; rfl
  · rw [List.length_map, List.length_range]

/-- Indexing past a prefix of known length lands in the suffix. -/
theorem getElem?_append_of_length (l₁ l₂ : List ℚ) (n k : ℕ)
    (h : l₁.length = k) (hk : k ≤ n) : (l₁ ++ l₂)[n]? = l₂[n - k]? := by
  subst h; exact List.getElem?_append_right hk

/-- The three-point rise ramp from 0 to 8191. -/
theorem ls3_eval : linspace 0 8191 3 = [0, 8191 / 2, 8191] := by
  rw [linspace, if_neg (by norm_num), if_neg (by norm_num),
    show List.range 3 = [0, 1, 2] from rfl]
  norm_num

theorem fallNum52 : pulseFallNum 5 2 = 1 := by
  norm_num [pulseFallNum, pyTrunc, riseNum_eq]

theorem dcDac52 : pulseDcDac 5 2 = 3276 := by
  norm_num [pulseDcDac, pyTrunc, pulseMaxDac]

theorem ls1_eval52 : linspace 8191 3276 1 = [8191] := by
  rw [linspace, if_neg (by norm_num), if_pos rfl]

/-- The generated sequence at `(5, 2, return_to_zero)` in segment form. -/
theorem gen52 : generate_pulse_sequence 5 2 true =
    Except.ok ((List.replicate 100 (0:ℚ) ++ linspace 0 8191 3 ++
      List.replicate 197 8191 ++ linspace 8191 3276 1 ++
      List.replicate 19699 3276).dropLast ++ [0]) := by
  rw [generate_pulse_sequence]
  rw [if_neg (by norm_num)]
  rw [if_neg (by rw [fallNum52]; norm_num [pulseFallEnd, riseNum_eq, holdNum_eq, fallNum52])]
  norm_num [fallNum52, dcDac52, pulseMaxDac, riseNum_eq, holdNum_eq]

/-- The generated sequence at `(5, 2, return_to_zero)` fully associated
to the right, with the forced trailing zero split off. -/
theorem L52 : generate_pulse_sequence 5 2 true =
    Except.ok (List.replicate 100 (0:ℚ) ++ ([0, 8191 / 2, 8191] ++
      (List.replicate 197 (8191:ℚ) ++ ([8191] ++
      (List.replicate 19698 (3276:ℚ) ++ [0]))))) := by
  rw [gen52, ls3_eval, ls1_eval52,
    show List.replicate 19699 (3276:ℚ) = List.replicate 19698 3276 ++ [3276] by
      rw [← List.replicate_succ']]
  rw [← List.append_assoc, List.dropLast_concat]
  rw [List.append_assoc, List.append_assoc, List.append_assoc, List.append_assoc]

theorem fallNum32 : pulseFallNum 3 2 = 1 := by
  norm_num [pulseFallNum, pyTrunc, riseNum_eq]

theorem dcDac32 : pulseDcDac 3 2 = 5460 := by
  norm_num [pulseDcDac, pyTrunc, pulseMaxDac]

theorem ls1_eval32 : linspace 8191 5460 1 = [8191] := by
  rw [linspace, if_neg (by norm_num), if_pos rfl]

/-- The generated sequence at `(3, 2)` without return-to-zero. -/
theorem gen32 : generate_pulse_sequence 3 2 false =
    Except.ok (List.replicate 100 (0:ℚ) ++ linspace 0 8191 3 ++
      List.replicate 197 8191 ++ linspace 8191 5460 1 ++
      List.replicate 19699 5460) := by
  rw [generate_pulse_sequence]
  rw [if_neg (by norm_num)]
  rw [if_neg (by rw [fallNum32]; norm_num [pulseFallEnd, riseNum_eq, holdNum_eq, fallNum32])]
  norm_num [fallNum32, dcDac32, pulseMaxDac, riseNum_eq, holdNum_eq]

/-- The generated sequence at `(3, 2)` fully associated to the right. -/
theorem L32 : generate_pulse_sequence 3 2 false =
    Except.ok (List.replicate 100 (0:ℚ) ++ ([0, 8191 / 2, 8191] ++
      (List.replicate 197 (8191:ℚ) ++ ([8191] ++
      List.replicate 19699 (5460:ℚ))))) := by
  rw [gen32, ls3_eval, ls1_eval32]
  rw [List.append_assoc, List.append_assoc, List.append_assoc]

/-- C8: the synthesized pulse at `pulse_voltage 5`, `dc_voltage 2`,
`return_to_zero` has 20000 samples, samples 0 through 99 are 0, sample
100 (the start of the rise ramp) is 0, the three-sample rise segment is
monotonically non-decreasing, and the last sample is forced to 0. -/
theorem pulse_sequence_5_2_rtz_shape :
    resLength (generate_pulse_sequence 5 2 true) = some 20000 ∧
    resTake (generate_pulse_sequence 5 2 true) 100 = some (List.replicate 100 0) ∧
    resGet (generate_pulse_sequence 5 2 true) 100 = some 0 ∧
    (resSlice (generate_pulse_sequence 5 2 true) 100 3).map isMonotone = some true ∧
    resGet (generate_pulse_sequence 5 2 true) 19999 = some 0 := by
  refine ⟨?_, ?_, ?_, ?_, ?_⟩
  · rw [L52]
    simp only [resLength]
    simp only [List.length_append, List.length_replicate, List.length_cons,
      List.length_nil]
  · rw [L52]
    simp only [resTake]
    rw [List.take_left' (by rw [List.length_replicate])]
  · rw [L52]
    simp only [resGet]
    rw [getElem?_append_of_length _ _ 100 100 (by rw [List.length_replicate]) le_rfl]
    rw [show (100 - 100 : ℕ) = 0 from rfl, List.cons_append, List.getElem?_cons_zero]
  · rw [L52]
    simp only [resSlice]
    rw [List.drop_left' (by rw [List.length_replicate])]
    rw [List.take_left' (by rfl)]
    simp only [Option.map, isMonotone, Bool.and_eq_true, decide_eq_true_eq]
    norm_num
  · rw [L52]
    simp only [resGet]
    rw [getElem?_append_of_length _ _ 19999 100 (by rw [List.length_replicate])
        (by norm_num)]
    rw [show (19999 - 100 : ℕ) = 19899 from rfl]
    rw [getElem?_append_of_length _ _ 19899 3 (by rfl) (by norm_num)]
    rw [show (19899 - 3 : ℕ) = 19896 from rfl]
    rw [getElem?_append_of_length _ _ 19896 197 (by rw [List.length_replicate])
        (by norm_num)]
    rw [show (19896 - 197 : ℕ) = 19699 from rfl]
    rw [getElem?_append_of_length _ _ 19699 1 (by rfl) (by norm_num)]
    rw [show (19699 - 1 : ℕ) = 19698 from rfl]
    rw [getElem?_append_of_length _ _ 19698 19698 (by rw [List.length_replicate]) le_rfl]
    rw [show (19698 - 19698 : ℕ) = 0 from rfl, List.getElem?_cons_zero]

/-- C7 counterexample: at `pulse_voltage 3`, `dc_voltage 2` the value
written into the tail (index 301 is the first tail sample) is 5460,
the truncation toward zero of `2/3 * 8191`, while rounding to the
nearest integer would give 5461: the code uses `int(...)`, not
`round(...)`. -/
theorem pulse_tail_truncates_not_rounds :
    resGet (generate_pulse_sequence 3 2 false) 301 = some 5460 ∧
    roundHalfEven (2 / 3 * (MAX_DAC_VALUE : ℚ)) = 5461 ∧
    ((5460 : ℚ) ≠ ((5461 : ℤ) : ℚ)) := by
  refine ⟨?_, ?_, by norm_num⟩
  · rw [L32]
    simp only [resGet]
    rw [getElem?_append_of_length _ _ 301 100 (by rw [List.length_replicate])
        (by norm_num)]
    rw [show (301 - 100 : ℕ) = 201 from rfl]
    rw [getElem?_append_of_length _ _ 201 3 (by rfl) (by norm_num)]
    rw [show (201 - 3 : ℕ) = 198 from rfl]
    rw [getElem?_append_of_length _ _ 198 197 (by rw [List.length_replicate])
        (by norm_num)]
    rw [show (198 - 197 : ℕ) = 1 from rfl]
    rw [getElem?_append_of_length _ _ 1 1 (by rfl) le_rfl]
    rw [show (1 - 1 : ℕ) = 0 from rfl, List.getElem?_replicate]
    norm_num
  · norm_num [roundHalfEven, MAX_DAC_VALUE]

/-- C7 amended: whenever `pulse_voltage` is nonzero and the synthesized
segments fit the 20000-point array (`fall_num` non-negative and the
fall end at most 19999), every tail sample — the last one shown here —
equals `int(dc_voltage / pulse_voltage * max_dac)` truncated toward
zero (`pulseDcDac`), not the rounded value the claim states. -/
theorem pulse_tail_holds_truncated_dc (pv dc : ℚ) (h0 : pv ≠ 0)
    (h1 : 0 ≤ pulseFallNum pv dc) (h2 : pulseFallEnd pv dc ≤ 19999) :
    resGet (generate_pulse_sequence pv dc false) 19999 =
      some ((pulseDcDac pv dc : ℚ)) := by
  have hfe : pulseFallNum pv dc ≤ 19699 := by
    rw [pulseFallEnd, riseNum_eq, holdNum_eq] at h2
    push_cast at h2
    omega
  have hNle : (pulseFallNum pv dc).toNat ≤ 19699 := by omega
  rw [generate_pulse_sequence, if_neg h0,
    if_neg (by rw [not_or]; exact ⟨not_lt.mpr h1, not_lt.mpr (le_trans h2 (by norm_num))⟩)]
  rw [riseNum_eq, holdNum_eq]
  simp only [resGet, Bool.false_eq_true, if_false]
  rw [List.append_assoc, List.append_assoc, List.append_assoc]
  rw [getElem?_append_of_length _ _ 19999 100 (by rw [List.length_replicate])
      (by norm_num)]
  rw [show (19999 - 100 : ℕ) = 19899 from rfl]
  rw [getElem?_append_of_length _ _ 19899 3 (by rw [linspace_length])
      (by norm_num)]
  rw [show (19899 - 3 : ℕ) = 19896 from rfl]
  rw [getElem?_append_of_length _ _ 19896 197 (by rw [List.length_replicate])
      (by norm_num)]
  rw [show (19896 - 197 : ℕ) = 19699 from rfl]
  rw [List.getElem?_append_right (by rw [linspace_length]; exact hNle)]
  rw [linspace_length, List.getElem?_replicate, if_pos (by omega)]

/-- C7 witness for the amended theorem: at `pulse_voltage 5`,
`dc_voltage 2` the segments fit and the last sample carries
`pulseDcDac 5 2` (which is 3276, the truncation of 3276.4). -/
theorem pulse_tail_holds_truncated_dc_witness :
    resGet (generate_pulse_sequence 5 2 false) 19999 =
      some ((pulseDcDac 5 2 : ℚ)) :=
  pulse_tail_holds_truncated_dc 5 2 (by norm_num)
    (by rw [fallNum52]; norm_num)
    (by rw [pulseFallEnd, fallNum52, riseNum_eq, holdNum_eq]; norm_num)

end Keysight81160A
